import Mathlib

/-!
Shallow embedding of the physics core of the PEM-Electrolyzer digital twin
(`src/app.py`, function `simulate_system`).  All machine floats are modelled
as real numbers; `np.linspace(a, b, n)` is modelled pointwise as
`a + k * ((b - a) / (n - 1))` over `k = 0, …, n-1`; `np.maximum(0, ·)` is
`max 0 ·`; `np.log` is `Real.log`; `np.sin` is `Real.sin`.
-/

namespace PEMTwin

noncomputable section

open Real List

/-- Faraday constant, `F = 96485` (`F, R = 96485, 8.314`). -/
def F : ℝ := 96485

/-- Gas constant, `R = 8.314`. -/
def R : ℝ := 8.314

/-- `T = T_c + 273.15`. -/
def kelvin (T_c : ℝ) : ℝ := T_c + 273.15

/-- `V_rev = 1.229 - 0.0009 * (T - 298.15)`. -/
def V_rev (T : ℝ) : ℝ := 1.229 - 0.0009 * (T - 298.15)

/-- Point `k` of `np.linspace(0.01, 2.0, 50)`. -/
def iRangePt (k : ℕ) : ℝ := 0.01 + k * ((2.0 - 0.01) / 49)

/-- `i_range = np.linspace(0.01, 2.0, 50)` as a list of 50 samples. -/
def iRange : List ℝ := (List.range 50).map iRangePt

/-- `eta_act = (R * T / (0.5 * 2 * F)) * np.log(i_range / 1e-3)`, pointwise. -/
def eta_act (T i : ℝ) : ℝ := (R * T / (0.5 * 2 * F)) * Real.log (i / 1e-3)

/-- `conductivity = (0.005139 * (T/303) - 0.00326) * 10`. -/
def conductivity (T : ℝ) : ℝ := (0.005139 * (T / 303) - 0.00326) * 10

/-- `eta_ohm = i_range * (thickness / conductivity)`, pointwise. -/
def eta_ohm (T thickness i : ℝ) : ℝ := i * (thickness / conductivity T)

/-- `v_total = V_rev + eta_act + eta_ohm`, pointwise at current density `i`. -/
def v_totalAt (T thickness i : ℝ) : ℝ :=
  V_rev T + eta_act T i + eta_ohm T thickness i

/-- The `v_total` array over the 50-point current-density grid. -/
def v_total (T thickness : ℝ) : List ℝ := iRange.map (v_totalAt T thickness)

/-- Point `k` of `np.linspace(0, 24, 96)`. -/
def hoursPt (k : ℕ) : ℝ := 0 + k * ((24 - 0) / 95)

/-- `hours = np.linspace(0, 24, 96)` as a list of 96 samples. -/
def hours : List ℝ := (List.range 96).map hoursPt

/-- `np.maximum(0, solar_kw * np.sin(np.pi * (hours - 6) / 12))`, pointwise. -/
def solarAt (solar_kw h : ℝ) : ℝ :=
  max 0 (solar_kw * Real.sin (π * (h - 6) / 12))

/-- The `solar_profile` array over the 96-point hour grid. -/
def solar_profile (solar_kw : ℝ) : List ℝ := hours.map (solarAt solar_kw)

/-- `v_op = 1.85`, the assumed average operating voltage. -/
def v_op : ℝ := 1.85

/-- `total_current = (solar_profile * 1000) / (v_op * cells)`, pointwise. -/
def totalCurrentAt (solar_kw cells h : ℝ) : ℝ :=
  (solarAt solar_kw h * 1000) / (v_op * cells)

/-- `h2_grams_hr = (total_current * 2.016) / (2 * 96485) * 3600`, pointwise. -/
def h2At (solar_kw cells h : ℝ) : ℝ :=
  (totalCurrentAt solar_kw cells h * 2.016) / (2 * 96485) * 3600

/-- The `h2_grams_hr` array over the 96-point hour grid. -/
def h2_grams_hr (solar_kw cells : ℝ) : List ℝ := hours.map (h2At solar_kw cells)

/-- The five sequences returned by `simulate_system`. -/
structure SimOutput where
  i_range : List ℝ
  v_total : List ℝ
  hours : List ℝ
  solar_profile : List ℝ
  h2_grams_hr : List ℝ

/-- `simulate_system(T_c, thickness, solar_kw, cells)`: the whole physics
core, returning the five arrays.  It is a total function: the source has no
input validation and raises nothing. -/
def simulate_system (T_c thickness solar_kw cells : ℝ) : SimOutput :=
  ⟨iRange, v_total (kelvin T_c) thickness, hours,
   solar_profile solar_kw, h2_grams_hr solar_kw cells⟩

/-! ### Helper lemmas -/

lemma conductivity_pos (T : ℝ) (hT : 273.15 ≤ T) : 0 < conductivity T := by
  unfold conductivity
  nlinarith

lemma iRangePt_pos (k : ℕ) : 0 < iRangePt k := by
  unfold iRangePt
  positivity

lemma iRangePt_strictMono (k : ℕ) : iRangePt k < iRangePt (k + 1) := by
  have hs : (0:ℝ) < (2.0 - 0.01) / 49 := by norm_num
  unfold iRangePt
  push_cast
  nlinarith

lemma iRangePt_lower (k : ℕ) : 0.01 ≤ iRangePt k := by
  have h0 : (0:ℝ) ≤ k := Nat.cast_nonneg k
  have hs : (0:ℝ) ≤ (2.0 - 0.01) / 49 := by norm_num
  unfold iRangePt
  nlinarith

lemma iRangePt_upper (k : ℕ) (hk : k ≤ 49) : iRangePt k ≤ 2.0 := by
  have hk49 : (k:ℝ) ≤ 49 := by exact_mod_cast hk
  have hs : (0:ℝ) ≤ (2.0 - 0.01) / 49 := by norm_num
  unfold iRangePt
  nlinarith

lemma v_totalAt_mono (T th i1 i2 : ℝ) (hT : 273.15 ≤ T) (hth : 0 < th)
    (hi1 : 0 < i1) (h12 : i1 ≤ i2) : v_totalAt T th i1 ≤ v_totalAt T th i2 := by
  have hc := conductivity_pos T hT
  have hT0 : (0:ℝ) < T := by linarith
  have hcoef : 0 ≤ R * T / (0.5 * 2 * F) := by
    unfold R F
    positivity
  have hdiv : i1 / 1e-3 ≤ i2 / 1e-3 :=
    (div_le_div_iff_of_pos_right (by norm_num)).mpr h12
  have hlog : Real.log (i1 / 1e-3) ≤ Real.log (i2 / 1e-3) :=
    Real.log_le_log (by positivity) hdiv
  have hact : eta_act T i1 ≤ eta_act T i2 :=
    mul_le_mul_of_nonneg_left hlog hcoef
  have hohm : eta_ohm T th i1 ≤ eta_ohm T th i2 := by
    unfold eta_ohm
    exact mul_le_mul_of_nonneg_right h12 (div_nonneg hth.le hc.le)
  unfold v_totalAt
  linarith

lemma solarAt_nonneg (cap h : ℝ) : 0 ≤ solarAt cap h := le_max_left 0 _

lemma solarAt_zero_at_0 (cap : ℝ) (hc : 0 ≤ cap) : solarAt cap 0 = 0 := by
  unfold solarAt
  rw [show π * ((0:ℝ) - 6) / 12 = -(π / 2) by ring, Real.sin_neg,
    Real.sin_pi_div_two]
  simp only [mul_neg_one]
  exact max_eq_left (by linarith)

lemma solarAt_zero_at_6 (cap : ℝ) : solarAt cap 6 = 0 := by
  unfold solarAt
  rw [show π * ((6:ℝ) - 6) / 12 = 0 by ring, Real.sin_zero]
  simp

lemma solarAt_zero_at_18 (cap : ℝ) : solarAt cap 18 = 0 := by
  unfold solarAt
  rw [show π * ((18:ℝ) - 6) / 12 = π by ring, Real.sin_pi]
  simp

lemma solarAt_zero_at_24 (cap : ℝ) (hc : 0 ≤ cap) : solarAt cap 24 = 0 := by
  unfold solarAt
  rw [show π * ((24:ℝ) - 6) / 12 = π / 2 + π by ring, Real.sin_add_pi,
    Real.sin_pi_div_two]
  simp only [mul_neg_one]
  exact max_eq_left (by linarith)

lemma solarAt_peak (cap : ℝ) (hc : 0 ≤ cap) : solarAt cap 12 = cap := by
  unfold solarAt
  rw [show π * ((12:ℝ) - 6) / 12 = π / 2 by ring, Real.sin_pi_div_two,
    mul_one]
  exact max_eq_right hc

lemma solarAt_le_cap (cap h : ℝ) (hc : 0 ≤ cap) : solarAt cap h ≤ cap := by
  unfold solarAt
  have hs := Real.sin_le_one (π * (h - 6) / 12)
  exact max_le hc (by nlinarith)

lemma h2At_nonneg (cap cells h : ℝ) (_hc : 0 ≤ cap) (hn : 1 ≤ cells) :
    0 ≤ h2At cap cells h := by
  have hvc : (0:ℝ) < v_op * cells := by
    unfold v_op
    nlinarith
  have hs := solarAt_nonneg cap h
  unfold h2At totalCurrentAt
  have hd : 0 ≤ solarAt cap h * 1000 / (v_op * cells) :=
    div_nonneg (by nlinarith) hvc.le
  have := mul_nonneg hd (show (0:ℝ) ≤ 2.016 by norm_num)
  exact mul_nonneg (div_nonneg this (by norm_num)) (by norm_num)

/-! ### Claim theorems -/

/-- C9: the current-density grid has exactly 50 points, is strictly
increasing, every point lies in [0.01, 2.0], and `simulate_system` returns
this same grid for every input. -/
theorem C9_current_grid :
    iRange.length = 50 ∧ List.Chain' (· < ·) iRange ∧
    (∀ k : Fin 50, 0.01 ≤ iRangePt k.1 ∧ iRangePt k.1 ≤ 2.0) ∧
    (∀ T_c thickness solar_kw cells : ℝ,
      (simulate_system T_c thickness solar_kw cells).i_range = iRange) := by
  refine ⟨by simp [iRange], ?_, ?_, fun _ _ _ _ => rfl⟩
  · unfold iRange
    rw [show (50 : ℕ) = 49 + 1 from rfl, List.chain'_map, List.chain'_range_succ]
    exact fun m _ => iRangePt_strictMono m
  · intro k
    exact ⟨iRangePt_lower k.1, iRangePt_upper k.1 (Nat.lt_succ_iff.mp k.2)⟩

/-- C10: the polarization half of the output depends only on temperature and
thickness, and the solar/hydrogen half only on solar capacity and cell
count. -/
theorem C10_independence :
    (∀ T_c thickness c1 n1 c2 n2 : ℝ,
      (simulate_system T_c thickness c1 n1).i_range
        = (simulate_system T_c thickness c2 n2).i_range ∧
      (simulate_system T_c thickness c1 n1).v_total
        = (simulate_system T_c thickness c2 n2).v_total) ∧
    (∀ T1 th1 T2 th2 c n : ℝ,
      (simulate_system T1 th1 c n).hours
        = (simulate_system T2 th2 c n).hours ∧
      (simulate_system T1 th1 c n).solar_profile
        = (simulate_system T2 th2 c n).solar_profile ∧
      (simulate_system T1 th1 c n).h2_grams_hr
        = (simulate_system T2 th2 c n).h2_grams_hr) :=
  ⟨fun _ _ _ _ _ _ => ⟨rfl, rfl⟩, fun _ _ _ _ _ _ => ⟨rfl, rfl, rfl⟩⟩

/-- C4 counterexample: the last point of the hour grid is exactly 24, so it
does not lie in the half-open interval [0, 24). -/
theorem C4_counterexample :
    hoursPt 95 ∈ hours ∧ ¬ hoursPt 95 < 24 := by
  constructor
  · unfold hours
    exact List.mem_map.mpr ⟨95, by simp, rfl⟩
  · unfold hoursPt
    norm_num

/-- C4 amended: the hour grid has exactly 96 evenly spaced points covering
the closed interval [0, 24], from 0 to 24 inclusive (spacing 24/95). -/
theorem C4_hour_grid :
    hours.length = 96 ∧
    (∀ k : Fin 95, hoursPt (k.1 + 1) - hoursPt k.1 = 24 / 95) ∧
    (∀ k : Fin 96, 0 ≤ hoursPt k.1 ∧ hoursPt k.1 ≤ 24) ∧
    hoursPt 0 = 0 ∧ hoursPt 95 = 24 := by
  refine ⟨by simp [hours], ?_, ?_, by unfold hoursPt; norm_num,
    by unfold hoursPt; norm_num⟩
  · intro k
    unfold hoursPt
    push_cast
    ring
  · intro k
    have hk : (k.1:ℝ) ≤ 95 := by exact_mod_cast Nat.lt_succ_iff.mp k.2
    have h0 : (0:ℝ) ≤ k.1 := Nat.cast_nonneg k.1
    constructor
    · unfold hoursPt
      positivity
    · unfold hoursPt
      nlinarith

/-- C8 counterexample: in the example scenario (60 °C) the reversible
voltage computed by the code is 1.1975 V, which is not approximately
1.1924 V (the difference is 0.0051 V, beyond any 4-decimal tolerance). -/
theorem C8_counterexample : ¬ |V_rev (kelvin 60) - 1.1924| < 1e-3 := by
  unfold V_rev kelvin
  rw [show (1.229:ℝ) - 0.0009 * (60 + 273.15 - 298.15) - 1.1924 = 0.0051 by
    norm_num]
  rw [abs_of_pos (by norm_num)]
  norm_num

/-- C8 amended: in the example scenario the reversible voltage is exactly
1.1975 V, and the total voltage at current density 1.0 A/cm² equals
1.1975 + eta_act(1.0) + eta_ohm(1.0). -/
theorem C8_example_scenario :
    V_rev (kelvin 60) = 1.1975 ∧
    v_totalAt (kelvin 60) 0.0125 1 =
      1.1975 + eta_act (kelvin 60) 1 + eta_ohm (kelvin 60) 0.0125 1 := by
  have hrev : V_rev (kelvin 60) = 1.1975 := by
    unfold V_rev kelvin
    norm_num
  exact ⟨hrev, by unfold v_totalAt; rw [hrev]⟩

/-- C3: with cell_count = 0 the core raises nothing.  The denominator
`v_op * cells` is 0 while the solar power at noon is positive (100 kW), yet
the model still returns a value for the hydrogen rate (the division by zero
is absorbed, mirroring numpy's silent inf/nan) instead of signalling a
DivisionByZero/InvalidArgument error. -/
theorem C3_no_error_on_zero_cells :
    v_op * (0:ℝ) = 0 ∧ solarAt 100 12 = 100 ∧ h2At 100 0 12 = 0 := by
  refine ⟨mul_zero v_op, ?_, ?_⟩
  · unfold solarAt
    rw [show π * ((12:ℝ) - 6) / 12 = π / 2 by ring, Real.sin_pi_div_two]
    norm_num
  · unfold h2At totalCurrentAt
    simp

/-- C5: for every solar capacity ≥ 0 the solar profile function is
non-negative at every hour, vanishes at hours 0, 6, 18 and 24, and attains
its maximum at hour 12 where it equals the capacity. -/
theorem C5_solar_shape (cap : ℝ) (hc : 0 ≤ cap) :
    (∀ h : ℝ, 0 ≤ solarAt cap h) ∧
    solarAt cap 0 = 0 ∧ solarAt cap 6 = 0 ∧ solarAt cap 18 = 0 ∧
    solarAt cap 24 = 0 ∧ solarAt cap 12 = cap ∧
    ∀ h : ℝ, solarAt cap h ≤ cap :=
  ⟨fun h => solarAt_nonneg cap h, solarAt_zero_at_0 cap hc,
   solarAt_zero_at_6 cap, solarAt_zero_at_18 cap, solarAt_zero_at_24 cap hc,
   solarAt_peak cap hc, fun h => solarAt_le_cap cap h hc⟩

/-- C5 witness: the solar-shape theorem instantiated at capacity 100 kW. -/
theorem C5_solar_shape_witness :
    (0:ℝ) ≤ 100 ∧ 0 ≤ solarAt 100 3 ∧ solarAt 100 0 = 0 ∧
    solarAt 100 6 = 0 ∧ solarAt 100 18 = 0 ∧ solarAt 100 24 = 0 ∧
    solarAt 100 12 = 100 ∧ solarAt 100 7 ≤ 100 := by
  have h := C5_solar_shape 100 (by norm_num)
  exact ⟨by norm_num, h.1 3, h.2.1, h.2.2.1, h.2.2.2.1, h.2.2.2.2.1,
    h.2.2.2.2.2.1, h.2.2.2.2.2.2 7⟩

/-- C6: with cell count ≥ 1 and capacity ≥ 0, the hydrogen rate is
non-negative at every hour and is exactly 0 at every hour at which the
solar power is 0. -/
theorem C6_h2_invariant (cap cells : ℝ) (hc : 0 ≤ cap) (hn : 1 ≤ cells) :
    ∀ h : ℝ, 0 ≤ h2At cap cells h ∧
      (solarAt cap h = 0 → h2At cap cells h = 0) := by
  intro h
  refine ⟨h2At_nonneg cap cells h hc hn, fun h0 => ?_⟩
  unfold h2At totalCurrentAt
  rw [h0]
  simp

/-- C6 witness: the hydrogen invariant instantiated at capacity 100 kW and
50 cells, evaluated at noon (non-negative) and at midnight (solar is 0, so
hydrogen is 0). -/
theorem C6_h2_invariant_witness :
    (0:ℝ) ≤ 100 ∧ (1:ℝ) ≤ 50 ∧ 0 ≤ h2At 100 50 12 ∧ h2At 100 50 0 = 0 := by
  have h := C6_h2_invariant 100 50 (by norm_num) (by norm_num)
  exact ⟨by norm_num, by norm_num, (h 12).1,
    (h 0).2 (solarAt_zero_at_0 100 (by norm_num))⟩

/-- C7: doubling the cell count (capacity fixed) exactly halves both the
total stack current and the hydrogen rate at every hour. -/
theorem C7_double_cells (cap n : ℝ) (hn : 1 ≤ n) :
    ∀ h : ℝ, totalCurrentAt cap (2 * n) h = totalCurrentAt cap n h / 2 ∧
      h2At cap (2 * n) h = h2At cap n h / 2 := by
  intro h
  have hn0 : n ≠ 0 := by positivity
  have hcur : totalCurrentAt cap (2 * n) h = totalCurrentAt cap n h / 2 := by
    unfold totalCurrentAt v_op
    rw [div_div]
    congr 1
    ring
  refine ⟨hcur, ?_⟩
  unfold h2At
  rw [hcur]
  ring

/-- C7 witness: halving under cell-count doubling at capacity 100 kW,
50 cells, hour 9. -/
theorem C7_double_cells_witness :
    (1:ℝ) ≤ 50 ∧
    totalCurrentAt 100 (2 * 50) 9 = totalCurrentAt 100 50 9 / 2 ∧
    h2At 100 (2 * 50) 9 = h2At 100 50 9 / 2 := by
  have h := C7_double_cells 100 50 (by norm_num) 9
  exact ⟨by norm_num, h.1, h.2⟩

/-- C1: for temperatures in [0, 100] °C and positive thickness, the voltage
sequence returned by `simulate_system` is monotonically non-decreasing over
the 50-point current-density grid, and the membrane conductivity is positive
on that temperature range. -/
theorem C1_voltage_monotone (T_c th c n : ℝ)
    (h0 : 0 ≤ T_c) (_h100 : T_c ≤ 100) (hth : 0 < th) :
    List.Chain' (· ≤ ·) ((simulate_system T_c th c n).v_total) ∧
    0 < conductivity (kelvin T_c) := by
  have hT : 273.15 ≤ kelvin T_c := by
    unfold kelvin
    linarith
  refine ⟨?_, conductivity_pos _ hT⟩
  show List.Chain' (· ≤ ·) (v_total (kelvin T_c) th)
  unfold v_total iRange
  rw [List.map_map, show (50 : ℕ) = 49 + 1 from rfl, List.chain'_map,
    List.chain'_range_succ]
  intro m _
  exact v_totalAt_mono (kelvin T_c) th (iRangePt m) (iRangePt (m + 1)) hT hth
    (iRangePt_pos m) (iRangePt_strictMono m).le

/-- C1 witness: voltage monotonicity at 60 °C, thickness 0.0125 cm,
100 kW, 50 cells. -/
theorem C1_voltage_monotone_witness :
    (0:ℝ) ≤ 60 ∧ (60:ℝ) ≤ 100 ∧ (0:ℝ) < 0.0125 ∧
    (List.Chain' (· ≤ ·) ((simulate_system 60 0.0125 100 50).v_total) ∧
     0 < conductivity (kelvin 60)) :=
  ⟨by norm_num, by norm_num, by norm_num,
   C1_voltage_monotone 60 0.0125 100 50 (by norm_num) (by norm_num)
     (by norm_num)⟩

/-- C2 counterexample at T1 = 20 °C, T2 = 80 °C, i = 1 A/cm²: the claim's
conjunction fails, because the activation overpotential grows with
temperature (its Tafel slope is proportional to T while the reference
exchange current density is fixed), so it is not smaller at the higher
temperature. -/
theorem C2_counterexample :
    ¬ (V_rev (kelvin 80) < V_rev (kelvin 20) ∧
       eta_act (kelvin 80) 1 < eta_act (kelvin 20) 1) := by
  rintro ⟨-, hlt⟩
  have hlog : 0 < Real.log (1 / 1e-3) := Real.log_pos (by norm_num)
  unfold eta_act R F kelvin at hlt
  nlinarith [hlog, hlt]

/-- C2 amended: increasing temperature strictly decreases the reversible
voltage but strictly INCREASES the activation overpotential at any fixed
current density above the reference exchange density 1e-3 A/cm². -/
theorem C2_temperature_effect (T1 T2 i : ℝ)
    (_h1 : 0 ≤ T1) (_h2 : T2 ≤ 100) (h12 : T1 < T2) (hi : 1e-3 < i) :
    V_rev (kelvin T2) < V_rev (kelvin T1) ∧
    eta_act (kelvin T1) i < eta_act (kelvin T2) i := by
  constructor
  · unfold V_rev kelvin
    linarith
  · have hlog : 0 < Real.log (i / 1e-3) :=
      Real.log_pos ((one_lt_div (by norm_num)).mpr hi)
    have hcoef : R * kelvin T1 / (0.5 * 2 * F) < R * kelvin T2 / (0.5 * 2 * F) := by
      unfold R F kelvin
      linarith
    exact mul_lt_mul_of_pos_right hcoef hlog

/-- C2 amended witness: at T1 = 20 °C, T2 = 80 °C, i = 1 A/cm². -/
theorem C2_temperature_effect_witness :
    (0:ℝ) ≤ 20 ∧ (80:ℝ) ≤ 100 ∧ (20:ℝ) < 80 ∧ (1e-3:ℝ) < 1 ∧
    (V_rev (kelvin 80) < V_rev (kelvin 20) ∧
     eta_act (kelvin 20) 1 < eta_act (kelvin 80) 1) :=
  ⟨by norm_num, by norm_num, by norm_num, by norm_num,
   C2_temperature_effect 20 80 1 (by norm_num) (by norm_num) (by norm_num)
     (by norm_num)⟩

end

end PEMTwin
